import Mathlib

/-!
Shallow embedding of the bootz bootstrap server (gmacf/bootz).

The embedding covers the protocol core: the entity manager's chassis
resolution and response signing (server/entitymanager), and the two
iterations of the bootstrap orchestrator found in server/service —
the newer `Service.GetBootstrapData` and the older
`Service.GetBootstrapRequest`.

Modelling conventions:
* Go byte strings (`[]byte`, and `string` values holding raw signature
  bytes) are `List Nat`.
* A Go pointer that the code may leave nil is an `Option`; proto getter
  methods (`GetX()`) are nil-safe and are modelled by `Option` projections
  with the proto zero value as default, while a direct field access on a
  possibly-nil pointer is a potential panic, modelled by an explicit
  `Outcome.panics` result.
* A Go `(T, error)` pair is `Option T × Option GoErr` where the value may
  be nil, or `Except GoErr T` where the success value is always non-nil.
* External collaborators that are not code of this repository
  (`proto.Marshal`, `sha256.Sum256`, `rsa.SignPKCS1v15`) are abstract
  function parameters; the repository's code is embedded concretely.
* `grpc/status` errors keep their code; their message is the format
  string literal from the source, without interpolated arguments.
* The `errlist.List` aggregate (openconfig/gnmi) is modelled by a list of
  errors collected in program order; `errs.Err()` is nil iff the list is
  empty and otherwise an error carrying the whole list.
-/

/-- gRPC status codes used by the server. -/
inductive Code where
  | invalidArgument
  | notFound
  | internal
  | unimplemented
  deriving Repr, DecidableEq

/-- Go error values produced by the server: a grpc status error, a plain
error message, or the aggregate of an errlist.List. -/
inductive GoErr where
  | status (c : Code) (msg : String)
  | errmsg (msg : String)
  | errlist (l : List GoErr)
  deriving Repr

/-- bootz.ControlCard descriptor: only the serial number is consulted by
the server code. -/
structure ControlCard where
  serialNumber : String
  deriving Repr, DecidableEq

/-- bootz.ChassisDescriptor. -/
structure ChassisDescriptor where
  manufacturer : String
  serialNumber : String
  controlCards : List ControlCard
  deriving Repr, DecidableEq

/-- bootz.ControlCardState: only the serial number is consulted. -/
structure ControlCardState where
  serialNumber : String
  deriving Repr, DecidableEq

/-- bootz.GetBootstrapDataRequest. -/
structure GetBootstrapDataRequest where
  chassisDescriptor : ChassisDescriptor
  controlCardState : Option ControlCardState
  nonce : String
  deriving Repr, DecidableEq

/-- bootz.BootstrapDataResponse: the per-card artifact bundle. The server
code only moves these values around; the serial number field is enough to
distinguish them. -/
structure BootstrapDataResponse where
  serialNum : String
  deriving Repr, DecidableEq

/-- bootz.BootstrapDataSigned: the aggregate of per-card responses plus
the request nonce; the exact serialization target for signing. A list
element is `none` when the Go slice holds a nil pointer. -/
structure BootstrapDataSigned where
  responses : List (Option BootstrapDataResponse)
  nonce : String
  deriving Repr, DecidableEq

/-- bootz.GetBootstrapDataResponse, the outer envelope. The signature
field holds raw bytes (`string(sig)` in Go); absent is the empty list. -/
structure GetBootstrapDataResponse where
  signedResponse : Option BootstrapDataSigned
  serializedBootstrapData : List Nat
  responseSignature : List Nat
  deriving Repr, DecidableEq

/-- bootz.BootMode enum (proto zero value is `unspecified`). -/
inductive BootMode where
  | unspecified
  | insecure
  | secure
  deriving Repr, DecidableEq

/-- bootz.Chassis inventory record, as consumed by the newer service
iteration (`chassis.GetBootMode()`). -/
structure Chassis where
  serialNumber : String
  bootMode : BootMode
  deriving Repr, DecidableEq

/-- service.ChassisEntity, the resolved record of the older service
iteration: the boot mode is a plain string there. -/
structure ChassisEntity where
  bootMode : String
  deriving Repr, DecidableEq

/-- Nil-safe proto getter `chassis.GetBootMode()`: nil receiver yields the
zero enum value. -/
def chassisBootMode (c : Option Chassis) : BootMode :=
  match c with
  | some chassis => chassis.bootMode
  | none => BootMode.unspecified

/-- Nil-safe getter chain `req.GetControlCardState().GetSerialNumber()`. -/
def requestStateSerial (req : GetBootstrapDataRequest) : String :=
  match req.controlCardState with
  | some st => st.serialNumber
  | none => ""

/-- The in-memory inventory of InMemoryEntityManager: a Go map from
chassis or control card serial number to ChassisEntity, modelled as an
association list (keys unique in every inventory the code builds). -/
def Inventory := List (String × ChassisEntity)

/-- Go map read `m.inventory[serial]`. -/
def Inventory.lookup (inv : Inventory) (serial : String) : Option ChassisEntity :=
  List.lookup serial inv

/-- Control-card leg of InMemoryEntityManager.ResolveChassis: iterate the
descriptor's control cards in order, skipping serials absent from
inventory, returning the entity of the first one present; NotFound when
the list is exhausted. -/
def resolveCards (inv : Inventory) : List ControlCard → Except GoErr ChassisEntity
  | [] => .error (.status .notFound "chassis descriptor %v not found in inventory")
  | card :: rest =>
    match inv.lookup card.serialNumber with
    | some c => .ok c
    | none => resolveCards inv rest

/-- InMemoryEntityManager.ResolveChassis: a non-empty chassis serial
number is looked up directly (NotFound when absent, with no fallthrough
to control cards); otherwise the control cards are tried in order. -/
def resolveChassis (inv : Inventory) (desc : ChassisDescriptor) : Except GoErr ChassisEntity :=
  if desc.serialNumber ≠ "" then
    match inv.lookup desc.serialNumber with
    | some c => .ok c
    | none => .error (.status .notFound "fixed form factor chassis %v not found in inventory")
  else
    resolveCards inv desc.controlCards

/-- The inventory built by entitymanager.New(): control cards 123A and
123B map to a modular chassis, 456 to a fixed form factor chassis; all
are SecureOnly. -/
def defaultInventory : Inventory :=
  [("123A", ⟨"SecureOnly"⟩), ("123B", ⟨"SecureOnly"⟩), ("456", ⟨"SecureOnly"⟩)]

/-- The external cryptographic and serialization collaborators called by
the signing code: proto.Marshal on a BootstrapDataSigned, sha256.Sum256,
and rsa.SignPKCS1v15 with the private key abstracted to an opaque handle
(`Nat`). They are parameters: the repository does not implement them. -/
structure CryptoPrims where
  marshalSigned : BootstrapDataSigned → Except GoErr (List Nat)
  sha256 : List Nat → List Nat
  rsaSignPKCS1v15 : Nat → List Nat → Except GoErr (List Nat)

/-- InMemoryEntityManager.Sign: fail with InvalidArgument when the
envelope's SignedResponse is unset; otherwise marshal exactly the
SignedResponse, hash it with SHA-256, RSA-PKCS#1v1.5-sign the digest,
and store the signature in ResponseSignature. Go mutates the envelope in
place, so the result is the error (if any) paired with the envelope
state after the call; every error path returns before any mutation. -/
def emSign (p : CryptoPrims) (resp : GetBootstrapDataResponse) (priv : Nat) :
    Option GoErr × GetBootstrapDataResponse :=
  match resp.signedResponse with
  | none => (some (.status .invalidArgument "empty signed response"), resp)
  | some sr =>
    match p.marshalSigned sr with
    | .error e => (some e, resp)
    | .ok bytes =>
      let hashed := p.sha256 bytes
      match p.rsaSignPKCS1v15 priv hashed with
      | .error e => (some e, resp)
      | .ok sig => (none, { resp with responseSignature := sig })

/-- The newer service iteration's EntityManager interface
(service.EntityManager in the current service.go): resolution may return
a nil chassis, per-card fetch may return a nil response, and Sign mutates
the envelope in place (modelled as returning the post-call envelope).
SetStatus is omitted: the bootstrap path never calls it. -/
structure EMNew where
  resolveChassis : ChassisDescriptor → Option Chassis × Option GoErr
  getBootstrapData : Option Chassis → Option ControlCard → Option BootstrapDataResponse × Option GoErr
  sign : GetBootstrapDataResponse → Option Chassis → Option ControlCard →
    Option GoErr × GetBootstrapDataResponse

/-- Loop state of the control-card loop in Service.GetBootstrapData:
collected errors, collected responses, and the active control card. -/
structure FetchState where
  errs : List GoErr
  responses : List (Option BootstrapDataResponse)
  active : Option ControlCard

/-- One iteration of the control-card loop in Service.GetBootstrapData:
remember the card matching the request's control-card state as active
(later matches overwrite earlier ones), fetch its bootstrap data,
collect the error if any, and always append the (possibly nil)
response. -/
def fetchStep (em : EMNew) (chassis : Option Chassis) (stateSerial : String)
    (st : FetchState) (v : ControlCard) : FetchState :=
  let active := if v.serialNumber = stateSerial then some v else st.active
  let fetched := em.getBootstrapData chassis (some v)
  { errs := st.errs ++ fetched.2.toList
    responses := st.responses ++ [fetched.1]
    active := active }

/-- Service.GetBootstrapData (the newer iteration). Steps mirror the
source: resolve the chassis (any resolver error becomes InvalidArgument),
enforce the secure-boot policy, fetch data for every control card
collecting errors, always perform the chassis-level fetch (the source
hardcodes `fixedChasis := true`), fail with the aggregate when any fetch
erred, serialize the signed payload, build the envelope, and sign it iff
the nonce is non-empty (a Sign error becomes Internal). -/
def getBootstrapData (marshal : BootstrapDataSigned → Except GoErr (List Nat))
    (em : EMNew) (req : GetBootstrapDataRequest) :
    Except GoErr GetBootstrapDataResponse :=
  let chassisDesc := req.chassisDescriptor
  match em.resolveChassis chassisDesc with
  | (_, some _) =>
    .error (.status .invalidArgument "failed to resolve chassis to inventory %+v, err: %v")
  | (chassis, none) =>
    if chassisBootMode chassis = BootMode.secure ∧ req.nonce = "" then
      .error (.status .invalidArgument "chassis requires secure boot only")
    else
      let st := chassisDesc.controlCards.foldl
        (fetchStep em chassis (requestStateSerial req)) ⟨[], [], none⟩
      let fixedFetch := em.getBootstrapData chassis none
      let errs := st.errs ++ fixedFetch.2.toList
      let responses := st.responses ++ [fixedFetch.1]
      if errs.length ≠ 0 then
        .error (.errlist errs)
      else
        let signedResponse : BootstrapDataSigned := ⟨responses, req.nonce⟩
        match marshal signedResponse with
        | .error e => .error e
        | .ok signedResponseBytes =>
          let resp : GetBootstrapDataResponse :=
            { signedResponse := some signedResponse
              serializedBootstrapData := signedResponseBytes
              responseSignature := [] }
          if req.nonce ≠ "" then
            match em.sign resp chassis st.active with
            | (some _, _) => .error (.status .internal "failed to sign bootz response")
            | (none, resp') => .ok resp'
          else
            .ok resp

/-- The older service iteration's EntityManager interface: ChassisEntity
with a string boot mode, per-card fetch without the chassis argument, and
Sign on the envelope alone. -/
structure EMOld where
  resolveChassis : ChassisDescriptor → Option ChassisEntity × Option GoErr
  getBootstrapData : ControlCard → Option BootstrapDataResponse × Option GoErr
  sign : GetBootstrapDataResponse → Option GoErr × GetBootstrapDataResponse

/-- Result of a Go function call that may panic: the older service
iteration dereferences the resolved chassis pointer directly, so a nil
chassis is a run-time panic, not an error return. -/
inductive Outcome (α : Type) where
  | panics
  | fails (e : GoErr)
  | ok (v : α)
  deriving Repr

/-- One iteration of the control-card loop in
Service.GetBootstrapRequest: fetch, collect error, append response. -/
def oldFetchStep (em : EMOld) (st : List GoErr × List (Option BootstrapDataResponse))
    (v : ControlCard) : List GoErr × List (Option BootstrapDataResponse) :=
  let fetched := em.getBootstrapData v
  (st.1 ++ fetched.2.toList, st.2 ++ [fetched.1])

/-- Service.GetBootstrapRequest (the older iteration). Steps mirror the
source: validate that the descriptor has a control card or a chassis
serial number, resolve the chassis (errors become InvalidArgument), read
`chassis.BootMode` — a nil dereference (panic) when the resolver returned
a nil entity with a nil error — enforce the secure-boot policy, fetch
per-card data collecting errors, fail with the aggregate when any fetch
erred, build the envelope, and sign it iff the nonce is non-empty. -/
def getBootstrapRequest (em : EMOld) (req : GetBootstrapDataRequest) :
    Outcome GetBootstrapDataResponse :=
  if req.chassisDescriptor.controlCards.length = 0 ∧ req.chassisDescriptor.serialNumber = "" then
    .fails (.status .invalidArgument
      "request must include at least one control card or a chassis serial number")
  else
    match em.resolveChassis req.chassisDescriptor with
    | (_, some _) =>
      .fails (.status .invalidArgument "failed to resolve chassis to inventory %+v")
    | (none, none) => .panics
    | (some chassis, none) =>
      if chassis.bootMode = "SecureOnly" ∧ req.nonce = "" then
        .fails (.status .invalidArgument "chassis requires secure boot only")
      else
        let st := req.chassisDescriptor.controlCards.foldl (oldFetchStep em) ([], [])
        if st.1.length ≠ 0 then
          .fails (.errlist st.1)
        else
          let resp : GetBootstrapDataResponse :=
            { signedResponse := some ⟨st.2, ""⟩
              serializedBootstrapData := []
              responseSignature := [] }
          if req.nonce ≠ "" then
            match em.sign resp with
            | (some _, _) => .fails (.status .internal "failed to sign bootz response")
            | (none, resp') => .ok resp'
          else
            .ok resp

/-- The bundled stub entity manager (entitymanager.EM): every method
returns nil values and a nil error; in particular ResolveChassis returns
a nil entity with a nil error, and Sign succeeds without touching the
envelope. -/
def stubEM : EMOld :=
  { resolveChassis := fun _ => (none, none)
    getBootstrapData := fun _ => (none, none)
    sign := fun resp => (none, resp) }

/-- The per-card fetch errors of the control-card loop, in card order:
the error of every card whose fetch failed, skipping successful cards. -/
def cardFetchErrs (em : EMNew) (chassis : Option Chassis) (cards : List ControlCard) : List GoErr :=
  cards.filterMap (fun v => (em.getBootstrapData chassis (some v)).2)

/-- All errors collected by Service.GetBootstrapData before the
success/failure decision: the per-card errors in order, then the error
(if any) of the unconditional chassis-level fetch. -/
def aggregateErrs (em : EMNew) (chassis : Option Chassis) (cards : List ControlCard) : List GoErr :=
  cardFetchErrs em chassis cards ++ (em.getBootstrapData chassis none).2.toList

/-- The response list assembled by Service.GetBootstrapData: one entry
per control card in input order, then the chassis-level entry. -/
def fetchedResponses (em : EMNew) (chassis : Option Chassis) (cards : List ControlCard) :
    List (Option BootstrapDataResponse) :=
  cards.map (fun v => (em.getBootstrapData chassis (some v)).1) ++
    [(em.getBootstrapData chassis none).1]

/-- The active control card remembered by the loop: the last card whose
serial number equals the request's control-card-state serial. -/
def activeCardOf (stateSerial : String) (cards : List ControlCard) : Option ControlCard :=
  cards.foldl (fun a v => if v.serialNumber = stateSerial then some v else a) none

/-- The signed payload assembled by Service.GetBootstrapData: the fetched
responses plus the request nonce. -/
def builtSigned (em : EMNew) (chassis : Option Chassis) (req : GetBootstrapDataRequest) :
    BootstrapDataSigned :=
  ⟨fetchedResponses em chassis req.chassisDescriptor.controlCards, req.nonce⟩

/-- The envelope Service.GetBootstrapData builds before the conditional
signing step: the signed payload, its serialization, and no signature. -/
def builtEnvelope (em : EMNew) (chassis : Option Chassis) (req : GetBootstrapDataRequest)
    (bytes : List Nat) : GetBootstrapDataResponse :=
  { signedResponse := some (builtSigned em chassis req)
    serializedBootstrapData := bytes
    responseSignature := [] }

/-- The respond phase of Service.GetBootstrapData once all fetches have
succeeded: serialize the signed payload, build the envelope, and sign it
iff the nonce is non-empty. Stated separately so that the theorems can
characterize the whole operation. -/
def respondStep (marshal : BootstrapDataSigned → Except GoErr (List Nat))
    (em : EMNew) (req : GetBootstrapDataRequest) (chassis : Option Chassis) :
    Except GoErr GetBootstrapDataResponse :=
  match marshal (builtSigned em chassis req) with
  | .error e => .error e
  | .ok signedResponseBytes =>
    if req.nonce ≠ "" then
      match em.sign (builtEnvelope em chassis req signedResponseBytes) chassis
          (activeCardOf (requestStateSerial req) req.chassisDescriptor.controlCards) with
      | (some _, _) => .error (.status .internal "failed to sign bootz response")
      | (none, resp') => .ok resp'
    else
      .ok (builtEnvelope em chassis req signedResponseBytes)

/-- Concrete stand-in for proto.Marshal used by witnesses: a total
deterministic encoding that never errors. -/
def marshalModel (sr : BootstrapDataSigned) : Except GoErr (List Nat) :=
  .ok (sr.responses.length :: sr.nonce.length :: [])

/-- Concrete collaborator bundle used by witnesses: the signature model
always produces a non-empty byte string. -/
def primsModel : CryptoPrims :=
  { marshalSigned := marshalModel
    sha256 := fun l => 7 :: l
    rsaSignPKCS1v15 := fun _ hashed => .ok (1 :: hashed) }

/-- An entity manager (newer interface) whose chassis has an open boot
mode and whose fetches and signing always succeed. -/
def emOpen : EMNew :=
  { resolveChassis := fun _ => (some ⟨"open", BootMode.unspecified⟩, none)
    getBootstrapData := fun _ c =>
      (some ⟨match c with | some v => v.serialNumber | none => "chassis"⟩, none)
    sign := fun e _ _ => (none, { e with responseSignature := [1] }) }

/-- An entity manager (newer interface) whose chassis is secure-only and
whose fetches and signing always succeed. -/
def emSecure : EMNew :=
  { resolveChassis := fun _ => (some ⟨"456", BootMode.secure⟩, none)
    getBootstrapData := fun _ c =>
      (some ⟨match c with | some v => v.serialNumber | none => "chassis"⟩, none)
    sign := fun e _ _ => (none, { e with responseSignature := [1] }) }

/-- An entity manager (newer interface) whose fetch fails for control
card 123B and for the chassis-level fetch. -/
def emFlaky : EMNew :=
  { resolveChassis := fun _ => (some ⟨"open", BootMode.unspecified⟩, none)
    getBootstrapData := fun _ c =>
      match c with
      | some v =>
        if v.serialNumber = "123B" then (none, some (.errmsg "fetch failed 123B"))
        else (some ⟨v.serialNumber⟩, none)
      | none => (none, some (.errmsg "fetch failed chassis"))
    sign := fun e _ _ => (none, { e with responseSignature := [1] }) }

/-- An entity manager (older interface) that resolves every descriptor
to a SecureOnly entity and never returns a nil entity on success. -/
def emGoodOld : EMOld :=
  { resolveChassis := fun _ => (some ⟨"SecureOnly"⟩, none)
    getBootstrapData := fun v => (some ⟨v.serialNumber⟩, none)
    sign := fun resp => (none, { resp with responseSignature := [1] }) }

/-- Request fixture: empty chassis descriptor (no serial number, no
control cards), empty nonce. -/
def reqEmpty : GetBootstrapDataRequest :=
  { chassisDescriptor := ⟨"", "", []⟩, controlCardState := none, nonce := "" }

/-- Request fixture: a single control card 123A, no chassis serial,
empty nonce. -/
def reqOneCard : GetBootstrapDataRequest :=
  { chassisDescriptor := ⟨"Cisco", "", [⟨"123A"⟩]⟩, controlCardState := none, nonce := "" }

/-- Request fixture: fixed form factor chassis 456, empty nonce. -/
def req456 : GetBootstrapDataRequest :=
  { chassisDescriptor := ⟨"Cisco", "456", []⟩, controlCardState := none, nonce := "" }

/-- Request fixture: fixed form factor chassis 456, non-empty nonce. -/
def req456n : GetBootstrapDataRequest :=
  { chassisDescriptor := ⟨"Cisco", "456", []⟩, controlCardState := none, nonce := "abc123" }

/-- Request fixture: modular chassis with control cards 123A and 123B,
non-empty nonce. -/
def reqCards : GetBootstrapDataRequest :=
  { chassisDescriptor := ⟨"", "", [⟨"123A"⟩, ⟨"123B"⟩]⟩
    controlCardState := some ⟨"123A"⟩
    nonce := "x" }

/-- Envelope fixture with a set SignedResponse payload. -/
def envWithPayload : GetBootstrapDataResponse :=
  { signedResponse := some ⟨[some ⟨"123A"⟩], "abc123"⟩
    serializedBootstrapData := [9, 9]
    responseSignature := [] }

/-- Envelope fixture with an unset SignedResponse payload. -/
def envNoPayload : GetBootstrapDataResponse :=
  { signedResponse := none
    serializedBootstrapData := [9, 9]
    responseSignature := [] }

/-- An entity manager (newer interface) whose resolver always fails with
NotFound. -/
def emNotFound : EMNew :=
  { resolveChassis := fun _ => (none, some (.status .notFound "not in inventory"))
    getBootstrapData := fun _ _ => (none, none)
    sign := fun e _ _ => (none, e) }

/-- An entity manager (older interface) whose resolver always fails with
NotFound. -/
def emNotFoundOld : EMOld :=
  { resolveChassis := fun _ => (none, some (.status .notFound "not in inventory"))
    getBootstrapData := fun _ => (none, none)
    sign := fun resp => (none, resp) }

/-! ### Characterization lemmas for the control-card fetch loop -/

/-- The errors accumulated by the fetch loop are the initial errors
followed by the per-card fetch errors in card order. -/
theorem fetchLoop_errs (em : EMNew) (chassis : Option Chassis) (s : String)
    (cards : List ControlCard) (st : FetchState) :
    (cards.foldl (fetchStep em chassis s) st).errs
      = st.errs ++ cardFetchErrs em chassis cards := by
  induction cards generalizing st with
  | nil => simp [cardFetchErrs]
  | cons v rest ih =>
    rw [List.foldl_cons, ih]
    cases h : (em.getBootstrapData chassis (some v)).2 <;>
      simp [fetchStep, h, cardFetchErrs, List.filterMap_cons]

/-- The responses accumulated by the fetch loop are the initial responses
followed by one fetched (possibly nil) response per card, in order. -/
theorem fetchLoop_responses (em : EMNew) (chassis : Option Chassis) (s : String)
    (cards : List ControlCard) (st : FetchState) :
    (cards.foldl (fetchStep em chassis s) st).responses
      = st.responses ++ cards.map (fun v => (em.getBootstrapData chassis (some v)).1) := by
  induction cards generalizing st with
  | nil => simp
  | cons v rest ih =>
    rw [List.foldl_cons, ih]
    simp [fetchStep]

/-- The active card computed by the fetch loop is the fold of the
serial-number comparison alone. -/
theorem fetchLoop_active (em : EMNew) (chassis : Option Chassis) (s : String)
    (cards : List ControlCard) (st : FetchState) :
    (cards.foldl (fetchStep em chassis s) st).active
      = cards.foldl (fun a v => if v.serialNumber = s then some v else a) st.active := by
  induction cards generalizing st with
  | nil => simp
  | cons v rest ih =>
    rw [List.foldl_cons, ih]
    simp [fetchStep]

/-- Full characterization of Service.GetBootstrapData as the composition
of resolve, policy check, error aggregation and the respond phase. -/
theorem getBootstrapData_char (marshal : BootstrapDataSigned → Except GoErr (List Nat))
    (em : EMNew) (req : GetBootstrapDataRequest) :
    getBootstrapData marshal em req =
      match em.resolveChassis req.chassisDescriptor with
      | (_, some _) =>
        .error (.status .invalidArgument "failed to resolve chassis to inventory %+v, err: %v")
      | (chassis, none) =>
        if chassisBootMode chassis = BootMode.secure ∧ req.nonce = "" then
          .error (.status .invalidArgument "chassis requires secure boot only")
        else if (aggregateErrs em chassis req.chassisDescriptor.controlCards).length ≠ 0 then
          .error (.errlist (aggregateErrs em chassis req.chassisDescriptor.controlCards))
        else
          respondStep marshal em req chassis := by
  unfold getBootstrapData
  dsimp only
  rcases hres : em.resolveChassis req.chassisDescriptor with ⟨chassis, e⟩
  cases e with
  | some e => rfl
  | none =>
    dsimp only
    rw [fetchLoop_errs, fetchLoop_responses, fetchLoop_active]
    simp only [List.nil_append, aggregateErrs, respondStep, builtSigned, builtEnvelope,
      fetchedResponses, activeCardOf]

/-- The control-card leg of resolution returns the first card whose
serial is in inventory, skipping absent ones. -/
theorem resolveCards_eq_findSome (inv : Inventory) (cards : List ControlCard) :
    resolveCards inv cards =
      match cards.findSome? (fun card => inv.lookup card.serialNumber) with
      | some c => .ok c
      | none => .error (.status .notFound "chassis descriptor %v not found in inventory") := by
  induction cards with
  | nil => rfl
  | cons card rest ih =>
    rw [resolveCards, List.findSome?_cons]
    cases h : inv.lookup card.serialNumber <;> simp [h, ih]

/-- Inversion of a successful run of Service.GetBootstrapData: the
resolver succeeded, the policy passed, no fetch erred, the payload
marshalled, and the returned envelope is the built one — signed exactly
when the nonce is non-empty. -/
theorem getBootstrapData_ok_inv (marshal : BootstrapDataSigned → Except GoErr (List Nat))
    (em : EMNew) (req : GetBootstrapDataRequest) (env : GetBootstrapDataResponse)
    (h : getBootstrapData marshal em req = .ok env) :
    ∃ chassis bytes,
      em.resolveChassis req.chassisDescriptor = (chassis, none) ∧
      ¬(chassisBootMode chassis = BootMode.secure ∧ req.nonce = "") ∧
      aggregateErrs em chassis req.chassisDescriptor.controlCards = [] ∧
      marshal (builtSigned em chassis req) = .ok bytes ∧
      ((req.nonce = "" ∧ env = builtEnvelope em chassis req bytes) ∨
        (req.nonce ≠ "" ∧
          em.sign (builtEnvelope em chassis req bytes) chassis
            (activeCardOf (requestStateSerial req) req.chassisDescriptor.controlCards)
            = (none, env))) := by
  rw [getBootstrapData_char] at h
  rcases hres : em.resolveChassis req.chassisDescriptor with ⟨chassis, e⟩
  rw [hres] at h
  cases e with
  | some e => simp at h
  | none =>
    dsimp only at h
    by_cases hpol : chassisBootMode chassis = BootMode.secure ∧ req.nonce = ""
    · rw [if_pos hpol] at h
      simp at h
    · rw [if_neg hpol] at h
      by_cases herr : (aggregateErrs em chassis req.chassisDescriptor.controlCards).length ≠ 0
      · rw [if_pos herr] at h
        simp at h
      · rw [if_neg herr] at h
        have hagg : aggregateErrs em chassis req.chassisDescriptor.controlCards = [] := by
          push_neg at herr
          exact List.length_eq_zero.mp herr
        unfold respondStep at h
        rcases hm : marshal (builtSigned em chassis req) with e | bytes
        · rw [hm] at h
          simp at h
        · rw [hm] at h
          dsimp only at h
          refine ⟨chassis, bytes, rfl, hpol, hagg, hm, ?_⟩
          by_cases hn : req.nonce = ""
          · rw [if_neg (by simp [hn])] at h
            simp only [Except.ok.injEq] at h
            exact Or.inl ⟨hn, h.symm⟩
          · rw [if_pos hn] at h
            rcases hs : em.sign (builtEnvelope em chassis req bytes) chassis
                (activeCardOf (requestStateSerial req) req.chassisDescriptor.controlCards)
              with ⟨serr, resp'⟩
            rw [hs] at h
            cases serr with
            | some e => simp at h
            | none =>
              simp only [Except.ok.injEq] at h
              exact Or.inr ⟨hn, by rw [h]⟩

/-! ### Claims -/

/-- C3: For every envelope whose SignedResponse payload is unset, Sign
fails with an explicit error without producing any signature bytes (the
result is the same for every crypto collaborator and key, and the
envelope is untouched); for every envelope with a set SignedResponse
payload and every private key, Sign sets the response signature to the
RSA PKCS#1 v1.5 signature over the SHA-256 digest of the deterministic
protobuf serialization of exactly the SignedResponse (responses + nonce)
structure; the outcome depends only on the SignedResponse — not on the
outer envelope's other fields, and the resolved chassis is not even an
input of Sign. -/
theorem C3_sign_contract (p : CryptoPrims) (resp : GetBootstrapDataResponse) (priv : Nat) :
    (resp.signedResponse = none →
      ∀ (p' : CryptoPrims) (priv' : Nat),
        emSign p' resp priv'
          = (some (.status .invalidArgument "empty signed response"), resp)) ∧
    (∀ sr bytes sig, resp.signedResponse = some sr →
      p.marshalSigned sr = .ok bytes →
      p.rsaSignPKCS1v15 priv (p.sha256 bytes) = .ok sig →
      emSign p resp priv = (none, { resp with responseSignature := sig })) ∧
    (∀ resp' : GetBootstrapDataResponse, resp'.signedResponse = resp.signedResponse →
      (emSign p resp' priv).1 = (emSign p resp priv).1 ∧
      ((emSign p resp priv).1 = none →
        (emSign p resp' priv).2.responseSignature
          = (emSign p resp priv).2.responseSignature)) := by
  refine ⟨?_, ?_, ?_⟩
  · intro h p' priv'
    simp [emSign, h]
  · intro sr bytes sig hsr hm hs
    simp [emSign, hsr, hm, hs]
  · intro resp' hsr
    unfold emSign
    rw [hsr]
    cases h : resp.signedResponse with
    | none => simp
    | some sr =>
      cases hm : p.marshalSigned sr with
      | error e => simp [hm]
      | ok bytes =>
        cases hs : p.rsaSignPKCS1v15 priv (p.sha256 bytes) with
        | error e => simp [hm, hs]
        | ok sig => simp [hm, hs]

/-- Witness for C3 at a concrete envelope, key and collaborator model:
the payload is set, marshalling and signing succeed, and Sign stores the
computed signature. -/
theorem C3_sign_contract_witness :
    envWithPayload.signedResponse = some ⟨[some ⟨"123A"⟩], "abc123"⟩ ∧
    primsModel.marshalSigned ⟨[some ⟨"123A"⟩], "abc123"⟩ = .ok [1, 6] ∧
    primsModel.rsaSignPKCS1v15 5 (primsModel.sha256 [1, 6]) = .ok [1, 7, 1, 6] ∧
    emSign primsModel envWithPayload 5
      = (none, { envWithPayload with responseSignature := [1, 7, 1, 6] }) :=
  ⟨rfl, rfl, rfl,
    (C3_sign_contract primsModel envWithPayload 5).2.1
      ⟨[some ⟨"123A"⟩], "abc123"⟩ [1, 6] [1, 7, 1, 6] rfl rfl rfl⟩

/-- C9: A successful Sign modifies only the ResponseSignature field,
leaving the SignedResponse payload and the serialized bootstrap data
unchanged; a failed Sign (unset payload, marshal failure, or signing
failure) leaves the envelope entirely unchanged. -/
theorem C9_sign_frame (p : CryptoPrims) (resp : GetBootstrapDataResponse) (priv : Nat) :
    (∀ e r, emSign p resp priv = (some e, r) → r = resp) ∧
    (∀ r, emSign p resp priv = (none, r) →
      r.signedResponse = resp.signedResponse ∧
      r.serializedBootstrapData = resp.serializedBootstrapData) := by
  unfold emSign
  cases h : resp.signedResponse with
  | none =>
    exact ⟨fun e r hr => (congrArg Prod.snd hr).symm,
      fun r hr => absurd (congrArg Prod.fst hr) (by simp)⟩
  | some sr =>
    dsimp only
    cases hm : p.marshalSigned sr with
    | error e =>
      dsimp only
      exact ⟨fun e' r hr => (congrArg Prod.snd hr).symm,
        fun r hr => absurd (congrArg Prod.fst hr) (by simp)⟩
    | ok bytes =>
      dsimp only
      cases hs : p.rsaSignPKCS1v15 priv (p.sha256 bytes) with
      | error e =>
        dsimp only
        exact ⟨fun e' r hr => (congrArg Prod.snd hr).symm,
          fun r hr => absurd (congrArg Prod.fst hr) (by simp)⟩
      | ok sig =>
        dsimp only
        refine ⟨fun e r hr => absurd (congrArg Prod.fst hr) (by simp), fun r hr => ?_⟩
        injection hr with h1 h2
        rw [← h2]
        exact ⟨rfl, rfl⟩

/-- Witness for C9: at the concrete envelope and collaborator model the
successful Sign keeps the payload and serialized bytes. -/
theorem C9_sign_frame_witness :
    emSign primsModel envWithPayload 5
        = (none, { envWithPayload with responseSignature := [1, 7, 1, 6] }) ∧
    ({ envWithPayload with responseSignature := [1, 7, 1, 6] }).signedResponse
        = envWithPayload.signedResponse ∧
    ({ envWithPayload with responseSignature := [1, 7, 1, 6] }).serializedBootstrapData
        = envWithPayload.serializedBootstrapData :=
  ⟨rfl, (C9_sign_frame primsModel envWithPayload 5).2
    { envWithPayload with responseSignature := [1, 7, 1, 6] } rfl⟩

/-- C4: resolveChassis implements exactly the three-step algorithm: a
descriptor with a non-empty serial number is resolved by direct lookup
of that serial alone (NotFound when absent, never falling through to
control cards — the result is unchanged under any replacement of the
control-card list); a descriptor with an empty serial number resolves to
the entity of the first control card (in supplied order) whose serial is
in inventory, skipping not-found cards; NotFound when nothing
resolves. -/
theorem C4_resolve_algorithm (inv : Inventory) (desc : ChassisDescriptor) :
    (desc.serialNumber ≠ "" →
      (resolveChassis inv desc =
        match inv.lookup desc.serialNumber with
        | some c => .ok c
        | none =>
          .error (.status .notFound "fixed form factor chassis %v not found in inventory")) ∧
      (∀ cs, resolveChassis inv { desc with controlCards := cs } = resolveChassis inv desc)) ∧
    (desc.serialNumber = "" →
      resolveChassis inv desc =
        match desc.controlCards.findSome? (fun card => inv.lookup card.serialNumber) with
        | some c => .ok c
        | none =>
          .error (.status .notFound "chassis descriptor %v not found in inventory")) := by
  constructor
  · intro hs
    constructor
    · rw [resolveChassis, if_pos hs]
    · intro cs
      rw [resolveChassis, resolveChassis, if_pos hs, if_pos hs]
  · intro hs
    rw [resolveChassis, if_neg (by simp [hs]), resolveCards_eq_findSome]

/-- Witness for C4 on the bundled inventory: serial 456 resolves
directly even with control cards present, and the card list 999, 123B
resolves to the first card found (123B), skipping 999. -/
theorem C4_resolve_algorithm_witness :
    ("456" : String) ≠ "" ∧
    resolveChassis defaultInventory ⟨"Cisco", "456", [⟨"123A"⟩]⟩
      = resolveChassis defaultInventory ⟨"Cisco", "456", []⟩ ∧
    ("" : String) = "" ∧
    resolveChassis defaultInventory ⟨"", "", [⟨"999"⟩, ⟨"123B"⟩]⟩
      = .ok ⟨"SecureOnly"⟩ :=
  ⟨by decide, by
    have h := ((C4_resolve_algorithm defaultInventory ⟨"Cisco", "456", []⟩).1
      (by decide)).2 [⟨"123A"⟩]
    exact h, rfl, by
    have h := (C4_resolve_algorithm defaultInventory ⟨"", "", [⟨"999"⟩, ⟨"123B"⟩]⟩).2 rfl
    rw [h]
    rfl⟩

/-- C1: If the resolver maps the request's descriptor to a chassis whose
boot mode is secure-only, then with an empty nonce GetBootstrapData
fails with InvalidArgument ("chassis requires secure boot only"), and
the identical request with a non-empty nonce passes the policy check and
succeeds, assuming every card fetch, the chassis-level fetch, the
serialization and the signing collaborator succeed. -/
theorem C1_secure_only_policy (marshal : BootstrapDataSigned → Except GoErr (List Nat))
    (em : EMNew) (req : GetBootstrapDataRequest) (chassis : Option Chassis)
    (hres : em.resolveChassis req.chassisDescriptor = (chassis, none))
    (hsec : chassisBootMode chassis = BootMode.secure) :
    (req.nonce = "" →
      getBootstrapData marshal em req
        = .error (.status .invalidArgument "chassis requires secure boot only")) ∧
    (req.nonce ≠ "" →
      (∀ v ∈ req.chassisDescriptor.controlCards,
        (em.getBootstrapData chassis (some v)).2 = none) →
      (em.getBootstrapData chassis none).2 = none →
      (∀ sr, ∃ bytes, marshal sr = .ok bytes) →
      (∀ e c a, (em.sign e c a).1 = none) →
      ∃ env, getBootstrapData marshal em req = .ok env) := by
  constructor
  · intro hn
    rw [getBootstrapData_char, hres]
    dsimp only
    rw [if_pos ⟨hsec, hn⟩]
  · intro hn hfc hff hm hs
    rw [getBootstrapData_char, hres]
    dsimp only
    rw [if_neg (fun hc => hn hc.2)]
    have hagg : aggregateErrs em chassis req.chassisDescriptor.controlCards = [] := by
      simp only [aggregateErrs, cardFetchErrs, hff, Option.toList_none, List.append_nil,
        List.filterMap_eq_nil_iff]
      exact hfc
    rw [if_neg (by simp [hagg])]
    unfold respondStep
    obtain ⟨bytes, hb⟩ := hm (builtSigned em chassis req)
    rw [hb]
    dsimp only
    rw [if_pos hn]
    rcases hsig : em.sign (builtEnvelope em chassis req bytes) chassis
        (activeCardOf (requestStateSerial req) req.chassisDescriptor.controlCards)
      with ⟨serr, resp'⟩
    have hserr := hs (builtEnvelope em chassis req bytes) chassis
      (activeCardOf (requestStateSerial req) req.chassisDescriptor.controlCards)
    rw [hsig] at hserr
    dsimp only at hserr
    subst hserr
    exact ⟨resp', rfl⟩

/-- Witness for C1: on the secure-only entity manager, the empty-nonce
request for chassis 456 is rejected, and the same request with a
non-empty nonce succeeds. -/
theorem C1_secure_only_policy_witness :
    emSecure.resolveChassis req456.chassisDescriptor
        = (some ⟨"456", BootMode.secure⟩, none) ∧
    chassisBootMode (some ⟨"456", BootMode.secure⟩) = BootMode.secure ∧
    getBootstrapData marshalModel emSecure req456
        = .error (.status .invalidArgument "chassis requires secure boot only") ∧
    (∃ env, getBootstrapData marshalModel emSecure req456n = .ok env) :=
  ⟨rfl, rfl,
    (C1_secure_only_policy marshalModel emSecure req456
      (some ⟨"456", BootMode.secure⟩) rfl rfl).1 rfl,
    (C1_secure_only_policy marshalModel emSecure req456n
      (some ⟨"456", BootMode.secure⟩) rfl rfl).2 (by decide)
      (fun v hv => absurd hv (List.not_mem_nil v)) rfl
      (fun sr => ⟨_, rfl⟩) (fun e c a => rfl)⟩

/-- C5: Once the request is past resolution and the policy check, the
orchestrator attempts every control card's fetch (the aggregate error
list is the full list of per-card errors, in card order, followed by the
chassis-level fetch error): if the aggregate is non-empty the whole
request fails with exactly that aggregate, every failing card's error is
a member of the returned aggregate, and a successful response implies no
card's fetch failed — a partial success is never returned. -/
theorem C5_aggregate_errors (marshal : BootstrapDataSigned → Except GoErr (List Nat))
    (em : EMNew) (req : GetBootstrapDataRequest) (chassis : Option Chassis)
    (hres : em.resolveChassis req.chassisDescriptor = (chassis, none))
    (hpol : ¬(chassisBootMode chassis = BootMode.secure ∧ req.nonce = "")) :
    (aggregateErrs em chassis req.chassisDescriptor.controlCards ≠ [] →
      getBootstrapData marshal em req
        = .error (.errlist (aggregateErrs em chassis req.chassisDescriptor.controlCards))) ∧
    (∀ v ∈ req.chassisDescriptor.controlCards, ∀ e,
      (em.getBootstrapData chassis (some v)).2 = some e →
      e ∈ aggregateErrs em chassis req.chassisDescriptor.controlCards) ∧
    (∀ env, getBootstrapData marshal em req = .ok env →
      aggregateErrs em chassis req.chassisDescriptor.controlCards = []) := by
  refine ⟨?_, ?_, ?_⟩
  · intro hne
    rw [getBootstrapData_char, hres]
    dsimp only
    rw [if_neg hpol,
      if_pos (fun h0 => hne (List.length_eq_zero.mp h0))]
  · intro v hv e he
    apply List.mem_append_left
    exact List.mem_filterMap.mpr ⟨v, hv, he⟩
  · intro env henv
    obtain ⟨chassis', bytes, hres', _, hagg, -⟩ :=
      getBootstrapData_ok_inv marshal em req env henv
    rw [hres] at hres'
    have : chassis = chassis' := congrArg Prod.fst hres'
    rw [this]
    exact hagg

/-- Witness for C5: with the flaky entity manager, the modular request's
aggregate holds the 123B error and the chassis-level error, the request
fails with exactly that aggregate, and the 123B error is a member. -/
theorem C5_aggregate_errors_witness :
    emFlaky.resolveChassis reqCards.chassisDescriptor
        = (some ⟨"open", BootMode.unspecified⟩, none) ∧
    getBootstrapData marshalModel emFlaky reqCards
        = .error (.errlist [.errmsg "fetch failed 123B", .errmsg "fetch failed chassis"]) ∧
    GoErr.errmsg "fetch failed 123B"
        ∈ aggregateErrs emFlaky (some ⟨"open", BootMode.unspecified⟩)
            reqCards.chassisDescriptor.controlCards :=
  ⟨rfl,
    (C5_aggregate_errors marshalModel emFlaky reqCards
      (some ⟨"open", BootMode.unspecified⟩) rfl (by simp [chassisBootMode])).1
      (by intro h; exact List.noConfusion h),
    (C5_aggregate_errors marshalModel emFlaky reqCards
      (some ⟨"open", BootMode.unspecified⟩) rfl (by simp [chassisBootMode])).2.1
      ⟨"123B"⟩ (by simp [reqCards]) (.errmsg "fetch failed 123B") rfl⟩

/-- C6 (code evaluation at the failing input): GetBootstrapData hardcodes
fixedChasis := true, so the synthetic chassis-level fetch happens on
every request. With one control card and an all-succeeding entity
manager the response list has two entries — the per-card one and the
synthetic chassis-level one — where the claim requires exactly one. -/
theorem C6_synthetic_fetch_always :
    reqOneCard.chassisDescriptor.controlCards.length = 1 ∧
    getBootstrapData marshalModel emOpen reqOneCard
      = .ok { signedResponse := some ⟨[some ⟨"123A"⟩, some ⟨"chassis"⟩], ""⟩
              serializedBootstrapData := [2, 0]
              responseSignature := [] } :=
  ⟨rfl, rfl⟩

/-- C7 counterexample: the newer GetBootstrapData performs no shape
validation. The request whose descriptor has no control card and no
serial number is not rejected at a validate step: it is passed to the
resolver, and with an entity manager that resolves it the operation even
succeeds — so the claim's "fails with InvalidArgument at the validate
step, before any resolution" is false for this bootstrap operation. -/
theorem C7_counterexample :
    reqEmpty.chassisDescriptor.controlCards = [] ∧
    reqEmpty.chassisDescriptor.serialNumber = "" ∧
    getBootstrapData marshalModel emOpen reqEmpty
      = .ok { signedResponse := some ⟨[some ⟨"chassis"⟩], ""⟩
              serializedBootstrapData := [1, 0]
              responseSignature := [] } :=
  ⟨rfl, rfl, rfl⟩

/-- C7 (amended): the older GetBootstrapRequest does fail with
InvalidArgument at the validate step for every request carrying neither
a control card nor a chassis serial number — for every entity manager,
hence before any resolution is attempted; the newer GetBootstrapData has
no validate step (see the counterexample). -/
theorem C7_validate_amended (em : EMOld) (req : GetBootstrapDataRequest)
    (hc : req.chassisDescriptor.controlCards = [])
    (hs : req.chassisDescriptor.serialNumber = "") :
    getBootstrapRequest em req
      = .fails (.status .invalidArgument
          "request must include at least one control card or a chassis serial number") := by
  unfold getBootstrapRequest
  rw [if_pos ⟨by simp [hc], hs⟩]

/-- Witness for C7's amended statement at the stub entity manager and
the empty-descriptor request. -/
theorem C7_validate_amended_witness :
    reqEmpty.chassisDescriptor.controlCards = [] ∧
    reqEmpty.chassisDescriptor.serialNumber = "" ∧
    getBootstrapRequest stubEM reqEmpty
      = .fails (.status .invalidArgument
          "request must include at least one control card or a chassis serial number") :=
  ⟨rfl, rfl, C7_validate_amended stubEM reqEmpty rfl rfl⟩

/-- C8: Whenever the resolver fails on the request's descriptor — in
particular with its NotFound error — both service iterations surface the
failure to the caller as an InvalidArgument status: the caller never
observes the resolver's raw NotFound at the protocol boundary. -/
theorem C8_notfound_to_invalid_argument (marshal : BootstrapDataSigned → Except GoErr (List Nat))
    (em : EMNew) (req : GetBootstrapDataRequest) (chassis : Option Chassis) (e : GoErr)
    (hres : em.resolveChassis req.chassisDescriptor = (chassis, some e)) :
    getBootstrapData marshal em req
      = .error (.status .invalidArgument
          "failed to resolve chassis to inventory %+v, err: %v") ∧
    (∀ (em2 : EMOld) (req2 : GetBootstrapDataRequest)
        (c2 : Option ChassisEntity) (e2 : GoErr),
      ¬(req2.chassisDescriptor.controlCards.length = 0 ∧
          req2.chassisDescriptor.serialNumber = "") →
      em2.resolveChassis req2.chassisDescriptor = (c2, some e2) →
      getBootstrapRequest em2 req2
        = .fails (.status .invalidArgument "failed to resolve chassis to inventory %+v")) := by
  constructor
  · rw [getBootstrapData_char, hres]
  · intro em2 req2 c2 e2 hv hres2
    unfold getBootstrapRequest
    rw [if_neg hv, hres2]
    cases c2 <;> rfl

/-- Witness for C8: the always-NotFound entity managers turn the
resolver failure into InvalidArgument in both iterations. -/
theorem C8_notfound_to_invalid_argument_witness :
    emNotFound.resolveChassis req456.chassisDescriptor
        = (none, some (.status .notFound "not in inventory")) ∧
    getBootstrapData marshalModel emNotFound req456
        = .error (.status .invalidArgument
            "failed to resolve chassis to inventory %+v, err: %v") ∧
    getBootstrapRequest emNotFoundOld req456
        = .fails (.status .invalidArgument "failed to resolve chassis to inventory %+v") :=
  ⟨rfl,
    (C8_notfound_to_invalid_argument marshalModel emNotFound req456 none
      (.status .notFound "not in inventory") rfl).1,
    (C8_notfound_to_invalid_argument marshalModel emNotFound req456 none
      (.status .notFound "not in inventory") rfl).2 emNotFoundOld req456 none
      (.status .notFound "not in inventory") (by simp [req456]) rfl⟩

/-- C2: Assuming the signing capability stores a non-empty signature
whenever it succeeds, any envelope GetBootstrapData returns carries a
non-empty responseSignature iff the request's nonce was non-empty; when
the nonce is empty the outcome is independent of the signing capability
(signing is not invoked); and when the nonce is non-empty a signing
error never yields an envelope — once aggregation and serialization have
succeeded, it makes the whole request fail with the Internal error. -/
theorem C2_signature_iff_nonce (marshal : BootstrapDataSigned → Except GoErr (List Nat))
    (em : EMNew) (req : GetBootstrapDataRequest) :
    ((∀ e c a, (em.sign e c a).1 = none → (em.sign e c a).2.responseSignature ≠ []) →
      ∀ env, getBootstrapData marshal em req = .ok env →
        (env.responseSignature ≠ [] ↔ req.nonce ≠ "")) ∧
    (req.nonce = "" →
      ∀ s', getBootstrapData marshal { em with sign := s' } req
              = getBootstrapData marshal em req) ∧
    ((∀ e c a, (em.sign e c a).1.isSome) →
      req.nonce ≠ "" →
      ∀ env, getBootstrapData marshal em req ≠ .ok env) ∧
    (∀ chassis, em.resolveChassis req.chassisDescriptor = (chassis, none) →
      req.nonce ≠ "" →
      aggregateErrs em chassis req.chassisDescriptor.controlCards = [] →
      ∀ bytes, marshal (builtSigned em chassis req) = .ok bytes →
      (em.sign (builtEnvelope em chassis req bytes) chassis
        (activeCardOf (requestStateSerial req) req.chassisDescriptor.controlCards)).1.isSome →
      getBootstrapData marshal em req
        = .error (.status .internal "failed to sign bootz response")) := by
  refine ⟨?_, ?_, ?_, ?_⟩
  · intro hset env hok
    obtain ⟨chassis, bytes, hres, hpol, hagg, hm, hcase⟩ :=
      getBootstrapData_ok_inv marshal em req env hok
    rcases hcase with ⟨hn, henv⟩ | ⟨hn, hsig⟩
    · rw [henv]
      simp [builtEnvelope, hn]
    · have h1 : (em.sign (builtEnvelope em chassis req bytes) chassis
          (activeCardOf (requestStateSerial req) req.chassisDescriptor.controlCards)).1
            = none := by rw [hsig]
      have h2 : (em.sign (builtEnvelope em chassis req bytes) chassis
          (activeCardOf (requestStateSerial req) req.chassisDescriptor.controlCards)).2
            = env := by rw [hsig]
      have := hset _ _ _ h1
      rw [h2] at this
      simp [this, hn]
  · intro hn s'
    rw [getBootstrapData_char, getBootstrapData_char]
    dsimp only
    rcases hres : em.resolveChassis req.chassisDescriptor with ⟨chassis, e⟩
    cases e with
    | some e => rfl
    | none =>
      dsimp only
      by_cases hpol : chassisBootMode chassis = BootMode.secure ∧ req.nonce = ""
      · rw [if_pos hpol, if_pos hpol]
      · rw [if_neg hpol, if_neg hpol]
        have hagg : aggregateErrs { em with sign := s' } chassis
            req.chassisDescriptor.controlCards
              = aggregateErrs em chassis req.chassisDescriptor.controlCards := rfl
        rw [hagg]
        by_cases herr :
            (aggregateErrs em chassis req.chassisDescriptor.controlCards).length ≠ 0
        · rw [if_pos herr, if_pos herr]
        · rw [if_neg herr, if_neg herr]
          unfold respondStep
          have hbs : builtSigned { em with sign := s' } chassis req
              = builtSigned em chassis req := rfl
          rw [hbs]
          cases hm : marshal (builtSigned em chassis req) with
          | error e => rfl
          | ok bytes =>
            dsimp only
            rw [if_neg (by simp [hn]), if_neg (by simp [hn])]
            rfl
  · intro hs hn env hok
    obtain ⟨chassis, bytes, hres, hpol, hagg, hm, hcase⟩ :=
      getBootstrapData_ok_inv marshal em req env hok
    rcases hcase with ⟨hn', _⟩ | ⟨_, hsig⟩
    · exact hn hn'
    · have h1 := hs (builtEnvelope em chassis req bytes) chassis
        (activeCardOf (requestStateSerial req) req.chassisDescriptor.controlCards)
      rw [hsig] at h1
      simp at h1
  · intro chassis hres hn hagg bytes hm hsig
    rw [getBootstrapData_char, hres]
    dsimp only
    rw [if_neg (fun hc => hn hc.2), if_neg (by simp [hagg])]
    unfold respondStep
    rw [hm]
    dsimp only
    rw [if_pos hn]
    rcases hq : em.sign (builtEnvelope em chassis req bytes) chassis
        (activeCardOf (requestStateSerial req) req.chassisDescriptor.controlCards)
      with ⟨serr, r⟩
    rw [hq] at hsig
    cases serr with
    | some e => rfl
    | none => simp at hsig

/-- Witness for C2: the secure entity manager's signer stores a
non-empty signature on success, and the returned envelope for the
nonce-carrying request has a non-empty signature. -/
theorem C2_signature_iff_nonce_witness :
    (∀ e c a, (emSecure.sign e c a).1 = none →
      (emSecure.sign e c a).2.responseSignature ≠ []) ∧
    (({ signedResponse := some ⟨[some ⟨"chassis"⟩], "abc123"⟩
        serializedBootstrapData := [1, 6]
        responseSignature := [1] } : GetBootstrapDataResponse).responseSignature ≠ []
      ↔ req456n.nonce ≠ "") :=
  ⟨fun e c a _ => by simp [emSecure],
    (C2_signature_iff_nonce marshalModel emSecure req456n).1
      (fun e c a _ => by simp [emSecure]) _ rfl⟩

/-- C10: The older GetBootstrapRequest reads chassis.BootMode without a
nil check, so it is panic-free exactly under the precondition that the
resolver never returns a nil entity together with a nil error; the
bundled stub entity manager returns (nil, nil), and the well-formed
request for chassis 456 with a nonce then reaches the nil dereference
instead of an error response. -/
theorem C10_nil_chassis_deref (em : EMOld)
    (hsafe : ∀ d, (em.resolveChassis d).2 = none → (em.resolveChassis d).1.isSome)
    (req : GetBootstrapDataRequest) :
    getBootstrapRequest em req ≠ Outcome.panics ∧
    getBootstrapRequest stubEM req456n = Outcome.panics := by
  refine ⟨?_, rfl⟩
  intro h
  unfold getBootstrapRequest at h
  split at h
  · exact Outcome.noConfusion h
  · split at h
    · exact Outcome.noConfusion h
    · rename_i heq
      have hc := hsafe req.chassisDescriptor
      rw [heq] at hc
      simpa using hc rfl
    · dsimp only at h
      split at h
      · exact Outcome.noConfusion h
      · split at h
        · exact Outcome.noConfusion h
        · split at h
          · split at h
            · exact Outcome.noConfusion h
            · exact Outcome.noConfusion h
          · exact Outcome.noConfusion h

/-- Witness for C10: an entity manager that always returns a non-nil
entity satisfies the precondition, making the modular request panic-free,
while the stub entity manager panics on the 456 request. -/
theorem C10_nil_chassis_deref_witness :
    (∀ d, (emGoodOld.resolveChassis d).2 = none → (emGoodOld.resolveChassis d).1.isSome) ∧
    getBootstrapRequest emGoodOld reqCards ≠ Outcome.panics ∧
    getBootstrapRequest stubEM req456n = Outcome.panics :=
  ⟨fun _ _ => rfl, C10_nil_chassis_deref emGoodOld (fun _ _ => rfl) reqCards⟩
